import Mathlib

/-! Infra-manager API handler: endpoint provisioning, session set-up, health.

A shallow embedding of `inframanager/api_handler/api_handler.go`.

* Go strings are Lean strings; `error` values are `Option GoError` (`none` is `nil`).
* Go `int` is `Int`; the conversion `uint32(x)` is reduction modulo `2^32`.
* The record store and the dataplane programming client live in other packages
  (`store`, `p4`).  Their effect on the handler is captured by a `World`
  (the store contents and the chronological trace of collaborator calls) and a
  `Collab` record of oracles that decide, from the calls made so far, whether
  the next dataplane or store mutation succeeds.
* A run-time panic of a handler (index out of range, nil dereference) is the
  result `none`.
-/

set_option autoImplicit false

namespace ApiHandler

/-! ## Data model -/

/-- Go `error` values that the handler can return: one built by `fmt.Errorf` or
`errors.New`, a `*strconv.NumError` (function, offending text, and whether it
is a range error rather than a malformed number), or one handed back by a
collaborator. -/
inductive GoError where
  | errorf (msg : String)
  | numError (func num : String) (isRange : Bool)
  | collab (msg : String)
  deriving DecidableEq, Repr

/-- The record `store.EndPoint`: pod IP address (the key), the `uint32`
interface identifier and the pod MAC address. -/
structure EndPoint where
  PodIpAddress : String
  InterfaceID : Nat
  PodMacAddress : String
  deriving DecidableEq, Repr

/-- The tag `p4.InterfaceType`. -/
inductive InterfaceType where
  | HOST
  | ENDPOINT
  deriving DecidableEq, Repr

/-- Calls made to the collaborators, in the order of the source. -/
inductive Event where
  | GetFromStore (ip : String)
  | InsertCniRules (mac ip : String) (port : Int) (kind : InterfaceType)
  | DeleteCniRules (mac ip : String)
  | WriteToStore (ep : EndPoint)
  | DeleteFromStore (ip : String)
  deriving DecidableEq, Repr

/-- The record store contents (a Go map keyed by IP) and the calls made so far. -/
structure World where
  store : String → Option EndPoint
  trace : List Event

/-- Behaviour of the collaborators: each oracle sees the calls made so far and
the arguments of the present call.  The dataplane oracles return the `error`
of `p4.InsertCniRules` and `p4.DeleteCniRules`; the store oracles return the
boolean of `WriteToStore` and `DeleteFromStore`.  The context and the client
handle are those of the running session and are part of the oracle. -/
structure Collab where
  InsertCniRules : List Event → String → String → Int → InterfaceType → Option GoError
  DeleteCniRules : List Event → String → String → Option GoError
  WriteToStore : List Event → EndPoint → Bool
  DeleteFromStore : List Event → String → Bool

/-- The Go conversion `uint32(x)` of an `int`. -/
def uint32 (x : Int) : Nat := (x % 4294967296).toNat

/-! ## Collaborators -/

/-- Modelled from the spec: `store.EndPoint.GetFromStore` is not part of the
sources at hand.  The spec gives it as `Get(ip) -> Option<Record>`, a lookup
keyed by the endpoint IP that does not change the store. -/
def GetFromStore (w : World) (ep : EndPoint) : World × Option EndPoint :=
  ({ w with trace := w.trace ++ [Event.GetFromStore ep.PodIpAddress] }, w.store ep.PodIpAddress)

/-- Modelled from the spec: `store.EndPoint.WriteToStore` is not part of the
sources at hand.  The spec gives it as `Write(record) -> bool`; on success the
record is held under its IP, on failure the store does not gain the record. -/
def WriteToStore (c : Collab) (w : World) (ep : EndPoint) : World × Bool :=
  if c.WriteToStore w.trace ep then
    ({ store := Function.update w.store ep.PodIpAddress (some ep),
       trace := w.trace ++ [Event.WriteToStore ep] }, true)
  else
    ({ w with trace := w.trace ++ [Event.WriteToStore ep] }, false)

/-- Modelled from the spec: `store.EndPoint.DeleteFromStore` is not part of the
sources at hand.  The spec gives it as `Delete(ip) -> bool`; on success the
key holds no record, on failure the store still shows the record. -/
def DeleteFromStore (c : Collab) (w : World) (ep : EndPoint) : World × Bool :=
  if c.DeleteFromStore w.trace ep.PodIpAddress then
    ({ store := Function.update w.store ep.PodIpAddress none,
       trace := w.trace ++ [Event.DeleteFromStore ep.PodIpAddress] }, true)
  else
    ({ w with trace := w.trace ++ [Event.DeleteFromStore ep.PodIpAddress] }, false)

/-- The call `p4.InsertCniRules(ctx, p4RtC, macAddr, ipAddr, portID, ifaceType)`:
the dataplane is an external collaborator, its verdict is the oracle's. -/
def InsertCniRules (c : Collab) (w : World) (macAddr ipAddr : String) (portID : Int)
    (ifaceType : InterfaceType) : World × Option GoError :=
  ({ w with trace := w.trace ++ [Event.InsertCniRules macAddr ipAddr portID ifaceType] },
    c.InsertCniRules w.trace macAddr ipAddr portID ifaceType)

/-- The call `p4.DeleteCniRules(ctx, p4RtC, macAddr, ipAddr)`. -/
def DeleteCniRules (c : Collab) (w : World) (macAddr ipAddr : String) :
    World × Option GoError :=
  ({ w with trace := w.trace ++ [Event.DeleteCniRules macAddr ipAddr] },
    c.DeleteCniRules w.trace macAddr ipAddr)

/-! ## The provisioning engine -/

/-- The function `insertRule` (create flow). -/
def insertRule (c : Collab) (w : World) (macAddr ipAddr : String) (portID : Int)
    (ifaceType : InterfaceType) : World × Bool × Option GoError :=
  let ep : EndPoint :=
    { PodIpAddress := ipAddr, InterfaceID := uint32 portID, PodMacAddress := macAddr }
  let r := GetFromStore w ep
  match r.2 with
  | some epEntry =>
    if epEntry.PodIpAddress = ep.PodIpAddress ∧
        epEntry.InterfaceID = ep.InterfaceID ∧
        epEntry.PodMacAddress = ep.PodMacAddress then
      (r.1, true, none)
    else
      (r.1, false,
        some (GoError.errorf ("A different entry for " ++ ipAddr ++ " already exists in the store")))
  | none =>
    let d := InsertCniRules c r.1 macAddr ipAddr portID ifaceType
    match d.2 with
    | some err => (d.1, false, some err)
    | none =>
      let s := WriteToStore c d.1 ep
      if s.2 != true then
        (s.1, false,
          some (GoError.errorf ("Failed to add " ++ macAddr ++ " " ++ ipAddr ++ " " ++
            toString portID ++ " to the store")))
      else
        (s.1, true, none)

/-! ## Go library functions used by the handlers -/

/-- Pieces of a byte string cut at every occurrence of the one-byte separator
`sep`; there is always at least one piece. -/
def splitChars (sep : Char) : List Char → List (List Char)
  | [] => [[]]
  | c :: cs =>
    if c = sep then [] :: splitChars sep cs
    else
      match splitChars sep cs with
      | [] => [[c]]
      | piece :: rest => (c :: piece) :: rest

/-- The Go call `strings.Split(s, sep)` for a one-byte separator. -/
def strings_Split (s : String) (sep : Char) : List String :=
  (splitChars sep s.toList).map String.mk

/-- The text of `s` before the first occurrence of `sep` (all of `s` when
there is none). -/
def beforeFirst (sep : Char) (s : String) : String :=
  String.mk (s.toList.takeWhile (fun c => c != sep))

/-- The digit loop of `strconv.ParseUint(s, 10, 32)`: `maxVal = 2^32 - 1`,
`cutoff = maxUint64/10 + 1`, arithmetic on `uint64`.  A byte that is not a
decimal digit is a malformed number (a letter is a digit value of ten or more,
which base 10 rejects like any other byte).  The result is the value together
with the error. -/
def ParseUintLoop (s0 : String) : List Char → Nat → Nat × Option GoError
  | [], n => (n, none)
  | c :: cs, n =>
    if c.isDigit then
      let d := c.toNat - 48
      if n ≥ 18446744073709551615 / 10 + 1 then
        (4294967295, some (GoError.numError "ParseUint" s0 true))
      else
        let n10 := n * 10
        let n1 := (n10 + d) % 18446744073709551616
        if n1 < n10 ∨ n1 > 4294967295 then
          (4294967295, some (GoError.numError "ParseUint" s0 true))
        else
          ParseUintLoop s0 cs n1
    else
      (0, some (GoError.numError "ParseUint" s0 false))

/-- The Go call `strconv.ParseUint(s, 10, 32)`. -/
def ParseUint (s : List Char) : Nat × Option GoError :=
  match s with
  | [] => (0, some (GoError.numError "ParseUint" "" false))
  | _ :: _ => ParseUintLoop (String.mk s) s 0

/-- The Go call `strconv.ParseInt(s, 10, 32)`: an optional sign, then
`ParseUint`, then the range check against `cutoff = 2^31`. -/
def ParseInt (s : String) : Int × Option GoError :=
  match s.toList with
  | [] => (0, some (GoError.numError "ParseInt" s false))
  | c :: cs =>
    let neg : Bool := c = '-'
    let body : List Char := if c = '+' ∨ c = '-' then cs else c :: cs
    let u := ParseUint body
    match u.2 with
    | some (GoError.numError _ _ false) => (0, some (GoError.numError "ParseInt" s false))
    | _ =>
      if !neg ∧ u.1 ≥ 2147483648 then
        (2147483647, some (GoError.numError "ParseInt" s true))
      else if neg ∧ u.1 > 2147483648 then
        (-2147483648, some (GoError.numError "ParseInt" s true))
      else
        (if neg then -(u.1 : Int) else (u.1 : Int), none)

/-! ## Requests and replies -/

/-- The message `proto.IPConfig` (the field the handler reads). -/
structure IPConfig where
  Address : String
  deriving DecidableEq, Repr

/-- The message `proto.AddRequest` (the fields the handler reads). -/
structure AddRequest where
  ContainerIps : List IPConfig
  DesiredHostInterfaceName : String
  deriving DecidableEq, Repr

/-- The message `proto.CreateNetworkRequest`; `AddRequest` is a pointer field. -/
structure CreateNetworkRequest where
  AddRequest : Option AddRequest
  MacAddr : String
  HostIfName : String
  deriving DecidableEq, Repr

/-- The message `proto.AddReply`. -/
structure AddReply where
  HostInterfaceName : String
  Successful : Bool
  deriving DecidableEq, Repr

/-- The message `proto.DeleteNetworkRequest`. -/
structure DeleteNetworkRequest where
  Ipv4Addr : String
  MacAddr : String
  deriving DecidableEq, Repr

/-- The message `proto.DelReply`. -/
structure DelReply where
  Successful : Bool
  deriving DecidableEq, Repr

/-- The message `proto.SetupHostInterfaceRequest`. -/
structure SetupHostInterfaceRequest where
  Ipv4Addr : String
  MacAddr : String
  IfName : String
  deriving DecidableEq, Repr

/-- The message `proto.Reply`. -/
structure Reply where
  Successful : Bool
  deriving DecidableEq, Repr

/-! ## Service handlers -/

/-- The handler `ApiServer.CreateNetwork`.  The second component is `none`
when the handler panics (nil `AddRequest`, no container IP, or an index past
the end of a slice) and the reply with the returned error otherwise. -/
def CreateNetwork (c : Collab) (w : World) (req : CreateNetworkRequest) :
    World × Option (AddReply × Option GoError) :=
  match req.AddRequest with
  | none => (w, none)
  | some add =>
    let out : AddReply :=
      { HostInterfaceName := add.DesiredHostInterfaceName, Successful := true }
    match add.ContainerIps[0]? with
    | none => (w, none)
    | some ip0 =>
      match (strings_Split ip0.Address '/')[0]? with
      | none => (w, none)
      | some ipAddr =>
        let macAddr := req.MacAddr
        let portName := req.HostIfName
        let tmpName := strings_Split portName '_'
        match tmpName[1]? with
        | none => (w, none)
        | some portIDStr =>
          let p := ParseInt portIDStr
          match p.2 with
          | some err => (w, some ({ out with Successful := false }, some err))
          | none =>
            let r := insertRule c w macAddr ipAddr p.1 InterfaceType.ENDPOINT
            (r.1, some ({ out with Successful := r.2.1 }, r.2.2))

/-- The handler `ApiServer.DeleteNetwork` (delete flow). -/
def DeleteNetwork (c : Collab) (w : World) (req : DeleteNetworkRequest) :
    World × Option (DelReply × Option GoError) :=
  let out : DelReply := { Successful := true }
  match (strings_Split req.Ipv4Addr '/')[0]? with
  | none => (w, none)
  | some ipAddr =>
    let macAddr := req.MacAddr
    let ep : EndPoint := { PodIpAddress := ipAddr, InterfaceID := 0, PodMacAddress := "" }
    let g := GetFromStore w ep
    match g.2 with
    | none =>
      (g.1, some ({ out with Successful := false },
        some (GoError.errorf ("Entry for " ++ ipAddr ++ " does not exist in the store"))))
    | some _ =>
      let d := DeleteCniRules c g.1 macAddr ipAddr
      match d.2 with
      | some err => (d.1, some ({ out with Successful := false }, some err))
      | none =>
        let s := DeleteFromStore c d.1 ep
        if s.2 != true then
          (s.1, some ({ out with Successful := false },
            some (GoError.errorf ("Failed to delete " ++ macAddr ++ " " ++ ipAddr ++
              " from the store"))))
        else
          (s.1, some (out, none))

/-- The handler `ApiServer.SetupHostInterface`. -/
def SetupHostInterface (c : Collab) (w : World) (req : SetupHostInterfaceRequest) :
    World × Option (Reply × Option GoError) :=
  let out : Reply := { Successful := true }
  match (strings_Split req.Ipv4Addr '/')[0]? with
  | none => (w, none)
  | some ipAddr =>
    let macAddr := req.MacAddr
    let portName := req.IfName
    let tmpName := strings_Split portName '_'
    match tmpName[1]? with
    | none => (w, none)
    | some portIDStr =>
      let p := ParseInt portIDStr
      match p.2 with
      | some err => (w, some ({ out with Successful := false }, some err))
      | none =>
        let r := insertRule c w macAddr ipAddr p.1 InterfaceType.HOST
        (r.1, some ({ out with Successful := r.2.1 }, r.2.2))

/-! ## Collaborators that always succeed, and small worlds -/

/-- Collaborators for which every dataplane and store call succeeds. -/
def okCollab : Collab :=
  { InsertCniRules := fun _ _ _ _ _ => none
    DeleteCniRules := fun _ _ _ => none
    WriteToStore := fun _ _ => true
    DeleteFromStore := fun _ _ => true }

/-- The world at start-up: an empty store, no call made yet. -/
def emptyWorld : World := { store := fun _ => none, trace := [] }

/-- The number of dataplane calls (rule installs and rule removals) in a trace. -/
def dataplaneCalls (t : List Event) : Nat :=
  t.countP fun e =>
    match e with
    | Event.InsertCniRules _ _ _ _ => true
    | Event.DeleteCniRules _ _ => true
    | _ => false

/-- The number of store mutations (writes and deletes) in a trace. -/
def storeMutations (t : List Event) : Nat :=
  t.countP fun e =>
    match e with
    | Event.WriteToStore _ => true
    | Event.DeleteFromStore _ => true
    | _ => false

/-- The world reached from start-up by one successful create for port `-1`. -/
def worldAfterNegativePort : World :=
  (insertRule okCollab emptyWorld "aa:bb:cc:dd:ee:01" "10.0.0.5" (-1) InterfaceType.ENDPOINT).1

/-- Collaborators whose dataplane calls fail; the store would accept any mutation. -/
def dataplaneDownCollab : Collab :=
  { InsertCniRules := fun _ _ _ _ _ => some (GoError.collab "dataplane unavailable")
    DeleteCniRules := fun _ _ _ => some (GoError.collab "dataplane unavailable")
    WriteToStore := fun _ _ => true
    DeleteFromStore := fun _ _ => true }

/-- Collaborators whose dataplane calls succeed and whose store refuses every mutation. -/
def storeDownCollab : Collab :=
  { InsertCniRules := fun _ _ _ _ _ => none
    DeleteCniRules := fun _ _ _ => none
    WriteToStore := fun _ _ => false
    DeleteFromStore := fun _ _ => false }

/-- A world whose store holds one record, for `10.0.0.5`, and no call made yet. -/
def oneRecordWorld : World :=
  { store := Function.update (fun _ => none) "10.0.0.5"
      (some ⟨"10.0.0.5", 2, "aa:bb:cc:dd:ee:01"⟩)
    trace := [] }

/-- The value accumulated by the digit loop, without the overflow checks. -/
def digitFold (l : List Char) (n : Nat) : Nat :=
  l.foldl (fun a ch => a * 10 + (ch.toNat - 48)) n

/-! ## Session set-up and forwarding-pipeline calls -/

/-- The connection handle `*grpc.ClientConn` (the address it was dialled to). -/
structure ClientConn where
  target : String
  deriving DecidableEq, Repr

/-- The P4Runtime client `*client.Client` built by `client.NewClient`: device
identifier and the two halves of the election identifier. -/
structure Client where
  deviceID : Nat
  electionHigh : Nat
  electionLow : Nat
  deriving DecidableEq, Repr

/-- The singleton `ApiServer`, reduced to the two fields of the session; `none`
is the nil pointer.  `NewApiServer` hands out this one value. -/
structure ApiServer where
  p4RtC : Option Client
  p4RtCConn : Option ClientConn
  deriving DecidableEq, Repr

/-- The singleton as `NewApiServer` first creates it, `&ApiServer{}`: no
session has been opened. -/
def NewApiServer : ApiServer := { p4RtC := none, p4RtCConn := none }

/-- The loop of the goroutine that reads `arbitrationCh`: for each
notification, a primary one is forwarded to `waitCh` unless one was already
sent, a backup one is only logged.  The result is the final value of `sent`,
that is, whether `waitCh` was signalled. -/
def arbitrationWatcher : List Bool → Bool → Bool
  | [], sent => sent
  | isPrimary :: rest, sent =>
    if isPrimary then
      if !sent then arbitrationWatcher rest true
      else arbitrationWatcher rest sent
    else arbitrationWatcher rest sent

/-- The branch taken by the `select` of `OpenP4RtC`. -/
inductive SelectCase where
  | ctxDone
  | waitCh
  deriving DecidableEq, Repr

/-- The `select` of `OpenP4RtC`, given the notifications that arrive on
`arbitrationCh` before the 5-second deadline of `ctx2`: the `waitCh` case when
the watcher signalled in that time, the `ctx2.Done()` case otherwise. -/
def electionSelect (arrived : List Bool) : SelectCase :=
  if arbitrationWatcher arrived false then SelectCase.waitCh else SelectCase.ctxDone

/-- The function `OpenP4RtC`.  `dial` is the result of `grpc.Dial`, `caps` the
result of the `Capabilities` call (the server's API version), `arrived` the
arbitration notifications received before the deadline.  Returns the singleton
as updated and the returned `error`. -/
def OpenP4RtC (server : ApiServer) (deviceId high low : Nat)
    (dial : Except GoError ClientConn) (caps : Except GoError String)
    (arrived : List Bool) : ApiServer × Option GoError :=
  match dial with
  | Except.error e => ({ server with p4RtCConn := none }, some e)
  | Except.ok conn =>
    let server1 : ApiServer := { server with p4RtCConn := some conn }
    match caps with
    | Except.error e => (server1, some e)
    | Except.ok _ =>
      let err : Option GoError := none
      let server2 : ApiServer :=
        { server1 with p4RtC := some { deviceID := deviceId, electionHigh := high,
                                       electionLow := low } }
      match electionSelect arrived with
      | SelectCase.ctxDone => (server2, err)
      | SelectCase.waitCh => (server2, err)

/-- The value `*client.FwdPipeConfig`. -/
structure FwdPipeConfig where
  cookie : Nat
  deriving DecidableEq, Repr

/-- What the pipeline methods of the P4Runtime client (the third-party package
`client` of `p4runtime-go-client`, outside this repository) reach beyond their
arguments: the files read by `ioutil.ReadFile`, the decoder of the P4Info
text, and the two RPCs made through a live client.  A failed read or decode
is given by its message. -/
structure ClientEnv where
  ReadFile : String → Except String (List Nat)
  UnmarshalP4Info : List Nat → Except String Unit
  GetForwardingPipelineConfig : Client → Nat → Option FwdPipeConfig × Option GoError
  SetForwardingPipelineConfig : Client → List Nat → Nat → Option GoError

/-- The client's method `(*Client).GetFwdPipe`: its first statement builds the
request from `c.deviceID`, which on a nil receiver is a nil-pointer
dereference (`none`); on a live client the request is sent. -/
def Client.GetFwdPipe (env : ClientEnv) (c : Option Client) (responseType : Nat) :
    Option (Option FwdPipeConfig × Option GoError) :=
  match c with
  | none => none
  | some cl => some (env.GetForwardingPipelineConfig cl responseType)

/-- The client's method `(*Client).SetFwdPipeFromBytes`: the P4Info text is
decoded first (a failure is returned as an error); then the request is built
from `c.deviceID` and `c.electionID`, a nil-pointer dereference on a nil
receiver; on a live client the request is sent. -/
def Client.SetFwdPipeFromBytes (env : ClientEnv) (c : Option Client)
    (binBytes p4infoBytes : List Nat) (cookie : Nat) :
    Option (Option FwdPipeConfig × Option GoError) :=
  match env.UnmarshalP4Info p4infoBytes with
  | Except.error msg =>
    some (none, some (GoError.errorf ("failed to decode P4Info Protobuf message: " ++ msg)))
  | Except.ok _ =>
    match c with
    | none => none
    | some cl =>
      match env.SetForwardingPipelineConfig cl binBytes cookie with
      | none => some (some { cookie := cookie }, none)
      | some err => some (none, some err)

/-- The client's method `(*Client).SetFwdPipe`: both files are read before the
receiver is touched, a failed read is returned as an error; then
`SetFwdPipeFromBytes` runs on the same receiver. -/
def Client.SetFwdPipe (env : ClientEnv) (c : Option Client) (binPath p4infoPath : String)
    (cookie : Nat) : Option (Option FwdPipeConfig × Option GoError) :=
  match env.ReadFile binPath with
  | Except.error msg =>
    some (none, some (GoError.errorf ("error when reading binary device config: " ++ msg)))
  | Except.ok binBytes =>
    match env.ReadFile p4infoPath with
    | Except.error msg =>
      some (none, some (GoError.errorf ("error when reading P4Info text file: " ++ msg)))
    | Except.ok p4infoBytes => Client.SetFwdPipeFromBytes env c binBytes p4infoBytes cookie

/-- The function `GetFwdPipe`: the client's method is called on the
singleton's `p4RtC`, whatever it holds. -/
def GetFwdPipe (env : ClientEnv) (server : ApiServer) (responseType : Nat) :
    Option (Option FwdPipeConfig × Option GoError) :=
  Client.GetFwdPipe env server.p4RtC responseType

/-- The function `SetFwdPipe`: the client's method is called on the
singleton's `p4RtC`, whatever it holds. -/
def SetFwdPipe (env : ClientEnv) (server : ApiServer) (binPath p4infoPath : String)
    (cookie : Nat) : Option (Option FwdPipeConfig × Option GoError) :=
  Client.SetFwdPipe env server.p4RtC binPath p4infoPath cookie

/-- Surroundings in which every file can be read, the P4Info text decodes and
the runtime server accepts every request. -/
def loadableEnv : ClientEnv :=
  { ReadFile := fun _ => Except.ok []
    UnmarshalP4Info := fun _ => Except.ok ()
    GetForwardingPipelineConfig := fun _ _ => (none, none)
    SetForwardingPipelineConfig := fun _ _ _ => none }

/-- Collaborators whose dataplane refuses an install of kind `HOST` and accepts
every other call; the store accepts every mutation. -/
def hostRefusingCollab : Collab :=
  { InsertCniRules := fun _ _ _ _ kind =>
      match kind with
      | InterfaceType.HOST => some (GoError.collab "host rules not available")
      | InterfaceType.ENDPOINT => none
    DeleteCniRules := fun _ _ _ => none
    WriteToStore := fun _ _ => true
    DeleteFromStore := fun _ _ => true }

/-! ## Comparing the two create handlers -/

/-- The same call with the interface kind of a rule install replaced by `k`;
every other call is left as it is. -/
def Event.withKind (k : InterfaceType) : Event → Event
  | Event.InsertCniRules mac ip port _ => Event.InsertCniRules mac ip port k
  | e => e

/-- The success flag and the error of a handler's outcome, without the other
fields of the reply; `none` stays the panic. -/
def flagAndError {ρ : Type} (successful : ρ → Bool) (r : Option (ρ × Option GoError)) :
    Option (Bool × Option GoError) :=
  r.map fun x => (successful x.1, x.2)

/-- The IP address a collaborator call is about: the key of a store call, the
address of a dataplane call. -/
def Event.ip : Event → String
  | Event.GetFromStore ip => ip
  | Event.InsertCniRules _ ip _ _ => ip
  | Event.DeleteCniRules _ ip => ip
  | Event.WriteToStore ep => ep.PodIpAddress
  | Event.DeleteFromStore ip => ip

/-! ## Service lifecycle and health -/

/-- The two values of the status flag, `types.ServerStatusOK` and
`types.ServerStatusStopped`; package `types` is not part of the sources at
hand, so the values are a parameter. -/
structure StatusNames where
  ServerStatusOK : String
  ServerStatusStopped : String
  deriving DecidableEq, Repr

/-- Modelled from the spec: the constants of package `types` are not part of
the sources at hand; the spec names the two flag values "serving" and
"stopped". -/
def specStatusNames : StatusNames :=
  { ServerStatusOK := "serving", ServerStatusStopped := "stopped" }

/-- The status enumeration of `grpc_health_v1.HealthCheckResponse`. -/
inductive ServingStatus where
  | UNKNOWN
  | SERVING
  | NOT_SERVING
  | SERVICE_UNKNOWN
  deriving DecidableEq, Repr

/-- The message `grpc_health_v1.HealthCheckResponse`. -/
structure HealthCheckResponse where
  Status : ServingStatus
  deriving DecidableEq, Repr

/-- The process state that `Start`, `Stop` and `Check` touch: the process-wide
flag `types.InfraManagerServerStatus`, whether the gRPC server has been
stopped, and whether the listener has been closed. -/
structure Service where
  InfraManagerServerStatus : String
  grpcStopped : Bool
  listenerClosed : Bool
  deriving DecidableEq, Repr

/-- The method `ApiServer.Start`, up to its return: the flag is set to
`ServerStatusOK`; serving and the wait for the stop signal run in a task of
their own. -/
def Start (n : StatusNames) (s : Service) : Service :=
  { s with InfraManagerServerStatus := n.ServerStatusOK }

/-- The method `ApiServer.Stop`: graceful stop of the gRPC server, close of the
listener, then the flag is set to `ServerStatusStopped`. -/
def Stop (n : StatusNames) (_s : Service) : Service :=
  { InfraManagerServerStatus := n.ServerStatusStopped, grpcStopped := true,
    listenerClosed := true }

/-- The method `ApiServer.Check`. -/
def Check (n : StatusNames) (s : Service) : HealthCheckResponse × Option GoError :=
  if s.InfraManagerServerStatus ≠ n.ServerStatusOK then
    ({ Status := ServingStatus.NOT_SERVING },
      some (GoError.errorf "InfraManager server is not serving"))
  else
    ({ Status := ServingStatus.SERVING }, none)

/-! ## Lemmas on the library functions -/

theorem splitChars_head (sep : Char) (l : List Char) :
    (splitChars sep l).head? = some (l.takeWhile (fun c => c != sep)) := by
  induction l with
  | nil => simp [splitChars]
  | cons c cs ih =>
    by_cases h : c = sep
    · simp [splitChars, h]
    · cases hs : splitChars sep cs with
      | nil => simp [hs] at ih
      | cons piece rest =>
        rw [hs] at ih
        simp only [List.head?_cons, Option.some.injEq] at ih
        simp [splitChars, h, hs, ih]

theorem splitChars_map_zero (sep : Char) (l : List Char) :
    ((splitChars sep l).map String.mk)[0]? =
      some (String.mk (l.takeWhile (fun c => c != sep))) := by
  have h := splitChars_head sep l
  cases hs : splitChars sep l with
  | nil => simp [hs] at h
  | cons piece rest =>
    rw [hs] at h
    simp only [List.head?_cons, Option.some.injEq] at h
    simp [h]

theorem strings_Split_zero (s : String) (sep : Char) :
    (strings_Split s sep)[0]? = some (beforeFirst sep s) :=
  splitChars_map_zero sep s.toList

theorem splitChars_of_not_mem (sep : Char) (l : List Char) (h : sep ∉ l) :
    splitChars sep l = [l] := by
  induction l with
  | nil => rfl
  | cons c cs ih =>
    have hc : c ≠ sep := fun e => h (by simp [e])
    have hcs : sep ∉ cs := fun e => h (List.mem_cons_of_mem _ e)
    simp [splitChars, hc, ih hcs]

theorem splitChars_append_sep (sep : Char) (l r : List Char) (h : sep ∉ l) :
    splitChars sep (l ++ sep :: r) = l :: splitChars sep r := by
  induction l with
  | nil => simp [splitChars]
  | cons c cs ih =>
    have hc : c ≠ sep := fun e => h (by simp [e])
    have hcs : sep ∉ cs := fun e => h (List.mem_cons_of_mem _ e)
    simp [splitChars, hc, ih hcs]

theorem strings_Split_no_sep_one (s : String) (sep : Char) (h : sep ∉ s.toList) :
    (strings_Split s sep)[1]? = none := by
  have h1 : splitChars sep s.data = [s.data] := splitChars_of_not_mem sep s.data h
  simp [strings_Split, h1]

theorem strings_Split_two_one (p d : String) (sep : Char) (hp : sep ∉ p.toList)
    (hd : sep ∉ d.toList) :
    (strings_Split (p ++ String.singleton sep ++ d) sep)[1]? = some d := by
  have h1 : splitChars sep (p.data ++ sep :: d.data) = p.data :: splitChars sep d.data :=
    splitChars_append_sep sep p.data d.data hp
  have h2 : splitChars sep d.data = [d.data] := splitChars_of_not_mem sep d.data hd
  simp [strings_Split, String.singleton, h1, h2]

theorem digitFold_ge (l : List Char) (n : Nat) : n ≤ digitFold l n := by
  induction l generalizing n with
  | nil => simp [digitFold]
  | cons c cs ih =>
    have h := ih (n * 10 + (c.toNat - 48))
    simp only [digitFold, List.foldl_cons] at h ⊢
    omega

theorem digitFold_eq_ofDigits (l : List Char) (n : Nat) :
    digitFold l n =
      n * 10 ^ l.length + Nat.ofDigits 10 (l.reverse.map fun ch => ch.toNat - 48) := by
  induction l generalizing n with
  | nil => simp [digitFold]
  | cons c cs ih =>
    have h := ih (n * 10 + (c.toNat - 48))
    simp only [digitFold, List.foldl_cons] at h ⊢
    rw [h]
    simp only [List.reverse_cons, List.map_append, List.map_cons, List.map_nil,
      Nat.ofDigits_append, Nat.ofDigits_singleton, List.length_map, List.length_reverse,
      List.length_cons]
    ring

theorem ParseUintLoop_digits (s0 : String) (l : List Char) (n : Nat)
    (hdig : ∀ ch ∈ l, ch.isDigit = true) (hfit : digitFold l n ≤ 4294967295) :
    ParseUintLoop s0 l n = (digitFold l n, none) := by
  induction l generalizing n with
  | nil => simp [ParseUintLoop, digitFold]
  | cons c cs ih =>
    have hc : c.isDigit = true := hdig c (by simp)
    have hcs : ∀ ch ∈ cs, ch.isDigit = true := fun ch h => hdig ch (List.mem_cons_of_mem _ h)
    have hstep : digitFold (c :: cs) n = digitFold cs (n * 10 + (c.toNat - 48)) := by
      simp [digitFold]
    rw [hstep] at hfit ⊢
    have hge := digitFold_ge cs (n * 10 + (c.toNat - 48))
    have h1 : ¬ n ≥ 18446744073709551615 / 10 + 1 := by omega
    have h2 : (n * 10 + (c.toNat - 48)) % 18446744073709551616 = n * 10 + (c.toNat - 48) :=
      Nat.mod_eq_of_lt (by omega)
    have h3 : ¬ (n * 10 + (c.toNat - 48) < n * 10 ∨ n * 10 + (c.toNat - 48) > 4294967295) := by
      omega
    rw [ParseUintLoop]
    simp only [hc, if_true, h1, if_false, h2, h3]
    exact ih _ hcs hfit

theorem isDigit_ne_sign (c : Char) (h : c.isDigit = true) : c ≠ '+' ∧ c ≠ '-' ∧ c ≠ '_' := by
  refine ⟨?_, ?_, ?_⟩ <;> · rintro rfl; revert h; decide

theorem ParseInt_digits (d : String) (hne : d.toList ≠ [])
    (hdig : ∀ ch ∈ d.toList, ch.isDigit = true)
    (hfit : Nat.ofDigits 10 (d.toList.reverse.map fun ch => ch.toNat - 48) < 2147483648) :
    ParseInt d =
      (((Nat.ofDigits 10 (d.toList.reverse.map fun ch => ch.toNat - 48) : Nat) : Int), none) := by
  have hval := digitFold_eq_ofDigits d.toList 0
  simp only [zero_mul, zero_add] at hval
  rw [← hval] at hfit ⊢
  cases hl : d.toList with
  | nil => exact absurd hl hne
  | cons c cs =>
    rw [hl] at hdig hfit
    obtain ⟨hplus, hminus, _⟩ := isDigit_ne_sign c (hdig c (by simp))
    have hloop := ParseUintLoop_digits (String.mk (c :: cs)) (c :: cs) 0 hdig (by omega)
    have h4 : ¬ 2147483648 ≤ digitFold (c :: cs) 0 := by omega
    have hl2 : d.data = c :: cs := hl
    simp [ParseInt, hl2, hplus, hminus, ParseUint, hloop, h4]

/-! ## Lemmas on the flows -/

theorem insertRule_of_absent_ok (c : Collab) (w : World) (mac ip : String) (port : Int)
    (kind : InterfaceType) (hfresh : w.store ip = none)
    (hdp : c.InsertCniRules (w.trace ++ [Event.GetFromStore ip]) mac ip port kind = none)
    (hwr : c.WriteToStore
      (w.trace ++ [Event.GetFromStore ip, Event.InsertCniRules mac ip port kind])
      ⟨ip, uint32 port, mac⟩ = true) :
    insertRule c w mac ip port kind =
      ({ store := Function.update w.store ip (some ⟨ip, uint32 port, mac⟩),
         trace := w.trace ++ [Event.GetFromStore ip, Event.InsertCniRules mac ip port kind,
           Event.WriteToStore ⟨ip, uint32 port, mac⟩] }, true, none) := by
  simp [insertRule, GetFromStore, InsertCniRules, WriteToStore, hfresh, hdp, hwr]

theorem insertRule_of_same (c : Collab) (w : World) (mac ip : String) (port : Int)
    (kind : InterfaceType) (hrec : w.store ip = some ⟨ip, uint32 port, mac⟩) :
    insertRule c w mac ip port kind =
      ({ w with trace := w.trace ++ [Event.GetFromStore ip] }, true, none) := by
  simp [insertRule, GetFromStore, hrec]

theorem DeleteNetwork_of_present_ok (c : Collab) (w : World) (req : DeleteNetworkRequest)
    (ep : EndPoint) (hrec : w.store (beforeFirst '/' req.Ipv4Addr) = some ep)
    (hdp : c.DeleteCniRules (w.trace ++ [Event.GetFromStore (beforeFirst '/' req.Ipv4Addr)])
      req.MacAddr (beforeFirst '/' req.Ipv4Addr) = none)
    (hdel : c.DeleteFromStore
      (w.trace ++ [Event.GetFromStore (beforeFirst '/' req.Ipv4Addr),
        Event.DeleteCniRules req.MacAddr (beforeFirst '/' req.Ipv4Addr)])
      (beforeFirst '/' req.Ipv4Addr) = true) :
    DeleteNetwork c w req =
      ({ store := Function.update w.store (beforeFirst '/' req.Ipv4Addr) none,
         trace := w.trace ++ [Event.GetFromStore (beforeFirst '/' req.Ipv4Addr),
           Event.DeleteCniRules req.MacAddr (beforeFirst '/' req.Ipv4Addr),
           Event.DeleteFromStore (beforeFirst '/' req.Ipv4Addr)] },
        some ({ Successful := true }, none)) := by
  simp [DeleteNetwork, strings_Split_zero, GetFromStore, DeleteCniRules, DeleteFromStore,
    hrec, hdp, hdel]

/-! ## Create and delete flows -/

/-- C1: idempotent create.  From a store with no record for `ip`, with the
dataplane install and the store write succeeding, two calls of `insertRule`
with the same arguments both return `(true, nil)`; the calls made are one
lookup, one install, one write and the second call's lookup, so the dataplane
is called once in total and not at all by the second call; afterwards the
store holds the record `(ip, uint32(port), mac)` under `ip` and is unchanged
on every other key. -/
theorem insertRule_idempotent (c : Collab) (w : World) (mac ip : String) (port : Int)
    (kind : InterfaceType) (hfresh : w.store ip = none)
    (hdp : c.InsertCniRules (w.trace ++ [Event.GetFromStore ip]) mac ip port kind = none)
    (hwr : c.WriteToStore
      (w.trace ++ [Event.GetFromStore ip, Event.InsertCniRules mac ip port kind])
      ⟨ip, uint32 port, mac⟩ = true) :
    (insertRule c w mac ip port kind).2 = (true, none) ∧
    (insertRule c (insertRule c w mac ip port kind).1 mac ip port kind).2 = (true, none) ∧
    (insertRule c (insertRule c w mac ip port kind).1 mac ip port kind).1.trace =
      w.trace ++ [Event.GetFromStore ip, Event.InsertCniRules mac ip port kind,
        Event.WriteToStore ⟨ip, uint32 port, mac⟩, Event.GetFromStore ip] ∧
    dataplaneCalls (insertRule c w mac ip port kind).1.trace = dataplaneCalls w.trace + 1 ∧
    dataplaneCalls (insertRule c (insertRule c w mac ip port kind).1 mac ip port kind).1.trace =
      dataplaneCalls (insertRule c w mac ip port kind).1.trace ∧
    (insertRule c (insertRule c w mac ip port kind).1 mac ip port kind).1.store ip =
      some ⟨ip, uint32 port, mac⟩ ∧
    ∀ k, k ≠ ip →
      (insertRule c (insertRule c w mac ip port kind).1 mac ip port kind).1.store k =
        w.store k := by
  rw [insertRule_of_absent_ok c w mac ip port kind hfresh hdp hwr]
  rw [insertRule_of_same c _ mac ip port kind (by simp)]
  refine ⟨rfl, rfl, by simp, by simp [dataplaneCalls, List.countP_append],
    by simp [dataplaneCalls, List.countP_append], by simp, ?_⟩
  intro k hk
  simp [Function.update_noteq hk]

theorem insertRule_idempotent_witness :
    emptyWorld.store "10.0.0.5" = none ∧
    (insertRule okCollab emptyWorld "aa:bb:cc:dd:ee:01" "10.0.0.5" 2
      InterfaceType.ENDPOINT).2 = (true, none) ∧
    (insertRule okCollab
      (insertRule okCollab emptyWorld "aa:bb:cc:dd:ee:01" "10.0.0.5" 2
        InterfaceType.ENDPOINT).1
      "aa:bb:cc:dd:ee:01" "10.0.0.5" 2 InterfaceType.ENDPOINT).2 = (true, none) :=
  ⟨rfl,
    (insertRule_idempotent okCollab emptyWorld "aa:bb:cc:dd:ee:01" "10.0.0.5" 2
      InterfaceType.ENDPOINT rfl rfl rfl).1,
    (insertRule_idempotent okCollab emptyWorld "aa:bb:cc:dd:ee:01" "10.0.0.5" 2
      InterfaceType.ENDPOINT rfl rfl rfl).2.1⟩

/-- C2, as amended: conflict on create.  When the store holds a record for
`ip` whose MAC differs from the candidate's or whose port differs from
`uint32(port)`, `insertRule` returns `false` with the conflict error, the only
call made is the lookup (no dataplane install, no store mutation), and the
store is unchanged. -/
theorem insertRule_conflict (c : Collab) (w : World) (mac ip : String) (port : Int)
    (kind : InterfaceType) (stored : EndPoint) (hrec : w.store ip = some stored)
    (hdiff : stored.PodMacAddress ≠ mac ∨ stored.InterfaceID ≠ uint32 port) :
    (insertRule c w mac ip port kind).2 =
      (false, some (GoError.errorf
        ("A different entry for " ++ ip ++ " already exists in the store"))) ∧
    (insertRule c w mac ip port kind).1.trace = w.trace ++ [Event.GetFromStore ip] ∧
    dataplaneCalls (insertRule c w mac ip port kind).1.trace = dataplaneCalls w.trace ∧
    (insertRule c w mac ip port kind).1.store = w.store := by
  have hne : ¬ (stored.PodIpAddress = ip ∧ stored.InterfaceID = uint32 port ∧
      stored.PodMacAddress = mac) := by
    rintro ⟨_, h2, h3⟩
    rcases hdiff with h | h
    · exact h h3
    · exact h h2
  simp [insertRule, GetFromStore, hrec, hne, dataplaneCalls, List.countP_append]

theorem insertRule_conflict_witness :
    oneRecordWorld.store "10.0.0.5" = some ⟨"10.0.0.5", 2, "aa:bb:cc:dd:ee:01"⟩ ∧
    (insertRule okCollab oneRecordWorld "ff:ff:ff:ff:ff:ff" "10.0.0.5" 2
      InterfaceType.ENDPOINT).2 =
      (false, some (GoError.errorf
        ("A different entry for " ++ "10.0.0.5" ++ " already exists in the store"))) ∧
    (insertRule okCollab oneRecordWorld "ff:ff:ff:ff:ff:ff" "10.0.0.5" 2
      InterfaceType.ENDPOINT).1.trace = [] ++ [Event.GetFromStore "10.0.0.5"] :=
  ⟨by simp [oneRecordWorld],
    (insertRule_conflict okCollab oneRecordWorld "ff:ff:ff:ff:ff:ff" "10.0.0.5" 2
      InterfaceType.ENDPOINT ⟨"10.0.0.5", 2, "aa:bb:cc:dd:ee:01"⟩
      (by simp [oneRecordWorld]) (Or.inl (by decide))).1,
    (insertRule_conflict okCollab oneRecordWorld "ff:ff:ff:ff:ff:ff" "10.0.0.5" 2
      InterfaceType.ENDPOINT ⟨"10.0.0.5", 2, "aa:bb:cc:dd:ee:01"⟩
      (by simp [oneRecordWorld]) (Or.inl (by decide))).2.1⟩

/-- C2 as stated fails: after a create for port `-1` the store holds the port
`4294967295` for `10.0.0.5`; the `int` argument `-1` differs from that stored
port, yet `insertRule` with the same MAC and port `-1` returns `(true, nil)`
instead of a conflict. -/
theorem insertRule_conflict_counterexample :
    worldAfterNegativePort.store "10.0.0.5" =
      some ⟨"10.0.0.5", 4294967295, "aa:bb:cc:dd:ee:01"⟩ ∧
    ((-1 : Int) ≠ ((4294967295 : Nat) : Int)) ∧
    (insertRule okCollab worldAfterNegativePort "aa:bb:cc:dd:ee:01" "10.0.0.5" (-1)
      InterfaceType.ENDPOINT).2 = (true, none) := by
  have hw : worldAfterNegativePort.store "10.0.0.5" =
      some ⟨"10.0.0.5", 4294967295, "aa:bb:cc:dd:ee:01"⟩ := by
    simp [worldAfterNegativePort, insertRule, GetFromStore, InsertCniRules, WriteToStore,
      okCollab, emptyWorld, uint32]
  refine ⟨hw, by decide, ?_⟩
  have hu : uint32 (-1) = 4294967295 := by decide
  rw [insertRule_of_same okCollab worldAfterNegativePort "aa:bb:cc:dd:ee:01" "10.0.0.5" (-1)
    InterfaceType.ENDPOINT (by rw [hw, hu])]

/-- C3: delete of an unknown endpoint.  When the store has no record for the
text of `ipv4Addr` before the first `/`, `DeleteNetwork` returns a reply with
`Successful = false` and the not-found error; the only call made is the lookup
(no dataplane removal, no store mutation) and the store is unchanged. -/
theorem DeleteNetwork_not_found (c : Collab) (w : World) (req : DeleteNetworkRequest)
    (habsent : w.store (beforeFirst '/' req.Ipv4Addr) = none) :
    (DeleteNetwork c w req).2 =
      some ({ Successful := false },
        some (GoError.errorf ("Entry for " ++ beforeFirst '/' req.Ipv4Addr ++
          " does not exist in the store"))) ∧
    (DeleteNetwork c w req).1.trace =
      w.trace ++ [Event.GetFromStore (beforeFirst '/' req.Ipv4Addr)] ∧
    dataplaneCalls (DeleteNetwork c w req).1.trace = dataplaneCalls w.trace ∧
    (DeleteNetwork c w req).1.store = w.store := by
  simp [DeleteNetwork, strings_Split_zero, GetFromStore, habsent, dataplaneCalls,
    List.countP_append]

theorem DeleteNetwork_not_found_witness :
    emptyWorld.store (beforeFirst '/' "10.0.0.9/24") = none ∧
    (DeleteNetwork okCollab emptyWorld ⟨"10.0.0.9/24", "aa:bb:cc:dd:ee:01"⟩).2 =
      some ({ Successful := false },
        some (GoError.errorf ("Entry for " ++ beforeFirst '/' "10.0.0.9/24" ++
          " does not exist in the store"))) :=
  ⟨rfl, (DeleteNetwork_not_found okCollab emptyWorld ⟨"10.0.0.9/24", "aa:bb:cc:dd:ee:01"⟩
    rfl).1⟩

/-- C4: a dataplane failure never changes the store.  Create flow: with no
record for `ip`, if the install fails with `e`, `insertRule` returns
`(false, e)`, the calls made are the lookup and the install (no store
mutation), and the store is unchanged.  Delete flow: with a record for the IP,
if the removal fails with `e`, `DeleteNetwork` replies `Successful = false`
with `e`, the calls made are the lookup and the removal (no store mutation),
the store is unchanged and still holds the record. -/
theorem dataplane_failure_keeps_store (c : Collab) (w : World) :
    (∀ (mac ip : String) (port : Int) (kind : InterfaceType) (e : GoError),
      w.store ip = none →
      c.InsertCniRules (w.trace ++ [Event.GetFromStore ip]) mac ip port kind = some e →
        (insertRule c w mac ip port kind).2 = (false, some e) ∧
        (insertRule c w mac ip port kind).1.trace =
          w.trace ++ [Event.GetFromStore ip, Event.InsertCniRules mac ip port kind] ∧
        storeMutations (insertRule c w mac ip port kind).1.trace = storeMutations w.trace ∧
        (insertRule c w mac ip port kind).1.store = w.store) ∧
    (∀ (req : DeleteNetworkRequest) (stored : EndPoint) (e : GoError),
      w.store (beforeFirst '/' req.Ipv4Addr) = some stored →
      c.DeleteCniRules (w.trace ++ [Event.GetFromStore (beforeFirst '/' req.Ipv4Addr)])
        req.MacAddr (beforeFirst '/' req.Ipv4Addr) = some e →
        (DeleteNetwork c w req).2 = some ({ Successful := false }, some e) ∧
        (DeleteNetwork c w req).1.trace =
          w.trace ++ [Event.GetFromStore (beforeFirst '/' req.Ipv4Addr),
            Event.DeleteCniRules req.MacAddr (beforeFirst '/' req.Ipv4Addr)] ∧
        storeMutations (DeleteNetwork c w req).1.trace = storeMutations w.trace ∧
        (DeleteNetwork c w req).1.store = w.store ∧
        (DeleteNetwork c w req).1.store (beforeFirst '/' req.Ipv4Addr) = some stored) := by
  constructor
  · intro mac ip port kind e hfresh hdp
    simp [insertRule, GetFromStore, InsertCniRules, hfresh, hdp, storeMutations,
      List.countP_append]
  · intro req stored e hrec hdp
    simp [DeleteNetwork, strings_Split_zero, GetFromStore, DeleteCniRules, hrec, hdp,
      storeMutations, List.countP_append]

theorem dataplane_failure_keeps_store_witness :
    (emptyWorld.store "10.0.0.5" = none ∧
      (insertRule dataplaneDownCollab emptyWorld "aa:bb:cc:dd:ee:01" "10.0.0.5" 2
        InterfaceType.ENDPOINT).2 =
        (false, some (GoError.collab "dataplane unavailable"))) ∧
    (oneRecordWorld.store (beforeFirst '/' "10.0.0.5/24") =
        some ⟨"10.0.0.5", 2, "aa:bb:cc:dd:ee:01"⟩ ∧
      (DeleteNetwork dataplaneDownCollab oneRecordWorld
        ⟨"10.0.0.5/24", "aa:bb:cc:dd:ee:01"⟩).2 =
        some ({ Successful := false }, some (GoError.collab "dataplane unavailable"))) :=
  ⟨⟨rfl, ((dataplane_failure_keeps_store dataplaneDownCollab emptyWorld).1
      "aa:bb:cc:dd:ee:01" "10.0.0.5" 2 InterfaceType.ENDPOINT
      (GoError.collab "dataplane unavailable") rfl rfl).1⟩,
    ⟨by decide, ((dataplane_failure_keeps_store dataplaneDownCollab oneRecordWorld).2
      ⟨"10.0.0.5/24", "aa:bb:cc:dd:ee:01"⟩ ⟨"10.0.0.5", 2, "aa:bb:cc:dd:ee:01"⟩
      (GoError.collab "dataplane unavailable") (by decide) rfl).1⟩⟩

/-- C5: round trip.  From a store with no record for `ip`, with the install,
the store write, the removal and the store delete all succeeding, a create
(`insertRule`) followed by `DeleteNetwork` for the same MAC and an address
whose text before the first `/` is `ip` both report success with a nil error;
the calls made are lookup, install, write, lookup, removal, delete, in that
order, so the removal for `(mac, ip)` comes after the install for
`(mac, ip, port)`; the store afterwards has no record for `ip` and equals the
store before the create. -/
theorem create_then_delete_round_trip (c : Collab) (w : World) (mac ip cidr : String)
    (port : Int) (kind : InterfaceType) (hcidr : beforeFirst '/' cidr = ip)
    (hfresh : w.store ip = none)
    (hdp : c.InsertCniRules (w.trace ++ [Event.GetFromStore ip]) mac ip port kind = none)
    (hwr : c.WriteToStore
      (w.trace ++ [Event.GetFromStore ip, Event.InsertCniRules mac ip port kind])
      ⟨ip, uint32 port, mac⟩ = true)
    (hrm : c.DeleteCniRules
      (w.trace ++ [Event.GetFromStore ip, Event.InsertCniRules mac ip port kind,
        Event.WriteToStore ⟨ip, uint32 port, mac⟩, Event.GetFromStore ip]) mac ip = none)
    (hdel : c.DeleteFromStore
      (w.trace ++ [Event.GetFromStore ip, Event.InsertCniRules mac ip port kind,
        Event.WriteToStore ⟨ip, uint32 port, mac⟩, Event.GetFromStore ip,
        Event.DeleteCniRules mac ip]) ip = true) :
    (insertRule c w mac ip port kind).2 = (true, none) ∧
    (DeleteNetwork c (insertRule c w mac ip port kind).1 ⟨cidr, mac⟩).2 =
      some ({ Successful := true }, none) ∧
    (DeleteNetwork c (insertRule c w mac ip port kind).1 ⟨cidr, mac⟩).1.trace =
      w.trace ++ [Event.GetFromStore ip, Event.InsertCniRules mac ip port kind,
        Event.WriteToStore ⟨ip, uint32 port, mac⟩, Event.GetFromStore ip,
        Event.DeleteCniRules mac ip, Event.DeleteFromStore ip] ∧
    (DeleteNetwork c (insertRule c w mac ip port kind).1 ⟨cidr, mac⟩).1.store ip = none ∧
    (DeleteNetwork c (insertRule c w mac ip port kind).1 ⟨cidr, mac⟩).1.store = w.store := by
  subst hcidr
  rw [insertRule_of_absent_ok c w mac _ port kind hfresh hdp hwr]
  rw [DeleteNetwork_of_present_ok c _ ⟨cidr, mac⟩ ⟨beforeFirst '/' cidr, uint32 port, mac⟩
    (by simp) (by simpa using hrm) (by simpa using hdel)]
  refine ⟨rfl, rfl, by simp, by simp, ?_⟩
  simp only [Function.update_idem]
  exact Function.update_eq_self_iff.mpr hfresh.symm

theorem create_then_delete_round_trip_witness :
    beforeFirst '/' "10.0.0.5/24" = "10.0.0.5" ∧
    emptyWorld.store "10.0.0.5" = none ∧
    (DeleteNetwork okCollab
      (insertRule okCollab emptyWorld "aa:bb:cc:dd:ee:01" "10.0.0.5" 2
        InterfaceType.ENDPOINT).1 ⟨"10.0.0.5/24", "aa:bb:cc:dd:ee:01"⟩).2 =
      some ({ Successful := true }, none) ∧
    (DeleteNetwork okCollab
      (insertRule okCollab emptyWorld "aa:bb:cc:dd:ee:01" "10.0.0.5" 2
        InterfaceType.ENDPOINT).1 ⟨"10.0.0.5/24", "aa:bb:cc:dd:ee:01"⟩).1.store =
      emptyWorld.store :=
  ⟨by decide, rfl,
    (create_then_delete_round_trip okCollab emptyWorld "aa:bb:cc:dd:ee:01" "10.0.0.5"
      "10.0.0.5/24" 2 InterfaceType.ENDPOINT (by decide) rfl rfl rfl rfl rfl).2.1,
    (create_then_delete_round_trip okCollab emptyWorld "aa:bb:cc:dd:ee:01" "10.0.0.5"
      "10.0.0.5/24" 2 InterfaceType.ENDPOINT (by decide) rfl rfl rfl rfl rfl).2.2.2.2⟩

/-! ## Port derivation from the interface name -/

/-- C6, what the code does: for an interface name without `_` the slice
`strings.Split(name, "_")` has one element and `tmpName[1]` is out of range, so
`CreateNetwork` and `SetupHostInterface` panic: no reply and no error value is
returned (and no collaborator is called). -/
theorem missing_delimiter_panics (c : Collab) (w : World) :
    (∀ req : CreateNetworkRequest, '_' ∉ req.HostIfName.toList →
      CreateNetwork c w req = (w, none)) ∧
    (∀ req : SetupHostInterfaceRequest, '_' ∉ req.IfName.toList →
      SetupHostInterface c w req = (w, none)) := by
  constructor
  · intro req h
    have h1 := strings_Split_no_sep_one req.HostIfName '_' h
    unfold CreateNetwork
    cases req.AddRequest with
    | none => rfl
    | some add =>
      cases hip : add.ContainerIps[0]? with
      | none => simp [hip]
      | some ip0 => simp [hip, strings_Split_zero, h1]
  · intro req h
    have h1 := strings_Split_no_sep_one req.IfName '_' h
    simp [SetupHostInterface, strings_Split_zero, h1]

theorem missing_delimiter_panics_witness :
    '_' ∉ "veth".toList ∧
    CreateNetwork okCollab emptyWorld
      ⟨some ⟨[⟨"10.0.0.5/24"⟩], "eth0"⟩, "aa:bb:cc:dd:ee:01", "veth"⟩ = (emptyWorld, none) ∧
    SetupHostInterface okCollab emptyWorld
      ⟨"192.168.1.10/32", "bb:bb:cc:dd:ee:01", "veth"⟩ = (emptyWorld, none) :=
  ⟨by decide,
    (missing_delimiter_panics okCollab emptyWorld).1
      ⟨some ⟨[⟨"10.0.0.5/24"⟩], "eth0"⟩, "aa:bb:cc:dd:ee:01", "veth"⟩ (by decide),
    (missing_delimiter_panics okCollab emptyWorld).2
      ⟨"192.168.1.10/32", "bb:bb:cc:dd:ee:01", "veth"⟩ (by decide)⟩

/-- C8, as amended: port derivation.  For an interface name `p ++ "_" ++ d`
where `p` contains no `_` and `d` is a non-empty string of decimal digits whose
value `n` is below `2^31`, `CreateNetwork` (for a request that carries a first
container IP) and `SetupHostInterface` return exactly what `insertRule` returns
for port `n`, with kind `ENDPOINT` and `HOST` respectively. -/
theorem port_derivation (c : Collab) (w : World) (p d : String) (n : Nat)
    (hp : '_' ∉ p.toList) (hne : d.toList ≠ [])
    (hdig : ∀ ch ∈ d.toList, ch.isDigit = true)
    (hval : Nat.ofDigits 10 (d.toList.reverse.map fun ch => ch.toNat - 48) = n)
    (hfit : n ≤ 2147483647) :
    (∀ (req : CreateNetworkRequest) (add : AddRequest) (ip0 : IPConfig),
      req.AddRequest = some add → add.ContainerIps[0]? = some ip0 →
      req.HostIfName = p ++ "_" ++ d →
      CreateNetwork c w req =
        ((insertRule c w req.MacAddr (beforeFirst '/' ip0.Address) (n : Int)
            InterfaceType.ENDPOINT).1,
          some ({ HostInterfaceName := add.DesiredHostInterfaceName,
                  Successful := (insertRule c w req.MacAddr (beforeFirst '/' ip0.Address)
                    (n : Int) InterfaceType.ENDPOINT).2.1 },
            (insertRule c w req.MacAddr (beforeFirst '/' ip0.Address) (n : Int)
              InterfaceType.ENDPOINT).2.2))) ∧
    (∀ req : SetupHostInterfaceRequest, req.IfName = p ++ "_" ++ d →
      SetupHostInterface c w req =
        ((insertRule c w req.MacAddr (beforeFirst '/' req.Ipv4Addr) (n : Int)
            InterfaceType.HOST).1,
          some ({ Successful := (insertRule c w req.MacAddr (beforeFirst '/' req.Ipv4Addr)
                    (n : Int) InterfaceType.HOST).2.1 },
            (insertRule c w req.MacAddr (beforeFirst '/' req.Ipv4Addr) (n : Int)
              InterfaceType.HOST).2.2))) := by
  have hd : '_' ∉ d.toList := fun h => (isDigit_ne_sign '_' (hdig '_' h)).2.2 rfl
  have hsplit : (strings_Split (p ++ "_" ++ d) '_')[1]? = some d :=
    strings_Split_two_one p d '_' hp hd
  have hparse : ParseInt d = ((n : Int), none) := by
    have h := ParseInt_digits d hne hdig (by omega)
    rw [hval] at h
    exact h
  constructor
  · intro req add ip0 hadd hip hname
    simp [CreateNetwork, hadd, hip, hname, strings_Split_zero, hsplit, hparse]
  · intro req hname
    simp [SetupHostInterface, hname, strings_Split_zero, hsplit, hparse]

theorem port_derivation_witness :
    (CreateNetwork okCollab emptyWorld
      ⟨some ⟨[⟨"10.0.0.5/24"⟩], "eth0"⟩, "aa:bb:cc:dd:ee:01", "veth_2"⟩).2 =
      some ({ HostInterfaceName := "eth0",
              Successful := (insertRule okCollab emptyWorld "aa:bb:cc:dd:ee:01"
                (beforeFirst '/' "10.0.0.5/24") ((2 : Nat) : Int) InterfaceType.ENDPOINT).2.1 },
        (insertRule okCollab emptyWorld "aa:bb:cc:dd:ee:01"
          (beforeFirst '/' "10.0.0.5/24") ((2 : Nat) : Int) InterfaceType.ENDPOINT).2.2) ∧
    (SetupHostInterface okCollab emptyWorld
      ⟨"192.168.1.10/32", "bb:bb:cc:dd:ee:01", "host_0"⟩).2 =
      some ({ Successful := (insertRule okCollab emptyWorld "bb:bb:cc:dd:ee:01"
                (beforeFirst '/' "192.168.1.10/32") ((0 : Nat) : Int) InterfaceType.HOST).2.1 },
        (insertRule okCollab emptyWorld "bb:bb:cc:dd:ee:01"
          (beforeFirst '/' "192.168.1.10/32") ((0 : Nat) : Int) InterfaceType.HOST).2.2) :=
  ⟨congrArg Prod.snd
      ((port_derivation okCollab emptyWorld "veth" "2" 2 (by decide) (by decide) (by decide)
        (by simp) (by decide)).1
        ⟨some ⟨[⟨"10.0.0.5/24"⟩], "eth0"⟩, "aa:bb:cc:dd:ee:01", "veth_2"⟩
        ⟨[⟨"10.0.0.5/24"⟩], "eth0"⟩ ⟨"10.0.0.5/24"⟩ rfl rfl (by decide)),
    congrArg Prod.snd
      ((port_derivation okCollab emptyWorld "host" "0" 0 (by decide) (by decide) (by decide)
        (by simp) (by decide)).2
        ⟨"192.168.1.10/32", "bb:bb:cc:dd:ee:01", "host_0"⟩ (by decide))⟩

/-- C8 as stated fails: `veth_1_2` is the leading part `veth_1`, `_`, and the digits
`2`, yet `CreateNetwork` takes the second piece of the name and provisions
port `1`, not `2`. -/
theorem port_derivation_counterexample :
    "veth_1" ++ "_" ++ "2" = "veth_1_2" ∧
    (CreateNetwork okCollab emptyWorld
      ⟨some ⟨[⟨"10.0.0.5/24"⟩], "eth0"⟩, "aa:bb:cc:dd:ee:01", "veth_1_2"⟩).1.trace =
      [Event.GetFromStore "10.0.0.5",
        Event.InsertCniRules "aa:bb:cc:dd:ee:01" "10.0.0.5" 1 InterfaceType.ENDPOINT,
        Event.WriteToStore ⟨"10.0.0.5", 1, "aa:bb:cc:dd:ee:01"⟩] ∧
    (CreateNetwork okCollab emptyWorld
      ⟨some ⟨[⟨"10.0.0.5/24"⟩], "eth0"⟩, "aa:bb:cc:dd:ee:01", "veth_1_2"⟩).1.trace ≠
      (insertRule okCollab emptyWorld "aa:bb:cc:dd:ee:01" "10.0.0.5" 2
        InterfaceType.ENDPOINT).1.trace := by
  refine ⟨by decide, by decide, by decide⟩

/-- C9: a store failure after a dataplane success is surfaced.  Create flow:
with no record for `ip` and the install succeeding, if the store write returns
false, `insertRule` returns `false` with a store error; the calls made are
lookup, install, write: one dataplane call and nothing after the failed write.
Delete flow: with a record present and the removal succeeding, if the store
delete returns false, `DeleteNetwork` replies `Successful = false` with a
store error; the calls made are lookup, removal, delete: one dataplane call
and nothing after the failed delete. -/
theorem store_failure_surfaced (c : Collab) (w : World) :
    (∀ (mac ip : String) (port : Int) (kind : InterfaceType),
      w.store ip = none →
      c.InsertCniRules (w.trace ++ [Event.GetFromStore ip]) mac ip port kind = none →
      c.WriteToStore (w.trace ++ [Event.GetFromStore ip, Event.InsertCniRules mac ip port kind])
        ⟨ip, uint32 port, mac⟩ = false →
        (insertRule c w mac ip port kind).2 =
          (false, some (GoError.errorf ("Failed to add " ++ mac ++ " " ++ ip ++ " " ++
            toString port ++ " to the store"))) ∧
        (insertRule c w mac ip port kind).1.trace =
          w.trace ++ [Event.GetFromStore ip, Event.InsertCniRules mac ip port kind,
            Event.WriteToStore ⟨ip, uint32 port, mac⟩] ∧
        dataplaneCalls (insertRule c w mac ip port kind).1.trace =
          dataplaneCalls w.trace + 1) ∧
    (∀ (req : DeleteNetworkRequest) (stored : EndPoint),
      w.store (beforeFirst '/' req.Ipv4Addr) = some stored →
      c.DeleteCniRules (w.trace ++ [Event.GetFromStore (beforeFirst '/' req.Ipv4Addr)])
        req.MacAddr (beforeFirst '/' req.Ipv4Addr) = none →
      c.DeleteFromStore
        (w.trace ++ [Event.GetFromStore (beforeFirst '/' req.Ipv4Addr),
          Event.DeleteCniRules req.MacAddr (beforeFirst '/' req.Ipv4Addr)])
        (beforeFirst '/' req.Ipv4Addr) = false →
        (DeleteNetwork c w req).2 =
          some ({ Successful := false },
            some (GoError.errorf ("Failed to delete " ++ req.MacAddr ++ " " ++
              beforeFirst '/' req.Ipv4Addr ++ " from the store"))) ∧
        (DeleteNetwork c w req).1.trace =
          w.trace ++ [Event.GetFromStore (beforeFirst '/' req.Ipv4Addr),
            Event.DeleteCniRules req.MacAddr (beforeFirst '/' req.Ipv4Addr),
            Event.DeleteFromStore (beforeFirst '/' req.Ipv4Addr)] ∧
        dataplaneCalls (DeleteNetwork c w req).1.trace = dataplaneCalls w.trace + 1) := by
  constructor
  · intro mac ip port kind hfresh hdp hwr
    simp [insertRule, GetFromStore, InsertCniRules, WriteToStore, hfresh, hdp, hwr,
      dataplaneCalls, List.countP_append]
  · intro req stored hrec hdp hdel
    simp [DeleteNetwork, strings_Split_zero, GetFromStore, DeleteCniRules, DeleteFromStore,
      hrec, hdp, hdel, dataplaneCalls, List.countP_append]

theorem store_failure_surfaced_witness :
    (emptyWorld.store "10.0.0.5" = none ∧
      (insertRule storeDownCollab emptyWorld "aa:bb:cc:dd:ee:01" "10.0.0.5" 2
        InterfaceType.ENDPOINT).2 =
        (false, some (GoError.errorf ("Failed to add " ++ "aa:bb:cc:dd:ee:01" ++ " " ++
          "10.0.0.5" ++ " " ++ toString (2 : Int) ++ " to the store")))) ∧
    (oneRecordWorld.store (beforeFirst '/' "10.0.0.5/24") =
        some ⟨"10.0.0.5", 2, "aa:bb:cc:dd:ee:01"⟩ ∧
      (DeleteNetwork storeDownCollab oneRecordWorld
        ⟨"10.0.0.5/24", "aa:bb:cc:dd:ee:01"⟩).2 =
        some ({ Successful := false },
          some (GoError.errorf ("Failed to delete " ++ "aa:bb:cc:dd:ee:01" ++ " " ++
            beforeFirst '/' "10.0.0.5/24" ++ " from the store")))) :=
  ⟨⟨rfl, ((store_failure_surfaced storeDownCollab emptyWorld).1
      "aa:bb:cc:dd:ee:01" "10.0.0.5" 2 InterfaceType.ENDPOINT rfl rfl rfl).1⟩,
    ⟨by decide, ((store_failure_surfaced storeDownCollab oneRecordWorld).2
      ⟨"10.0.0.5/24", "aa:bb:cc:dd:ee:01"⟩ ⟨"10.0.0.5", 2, "aa:bb:cc:dd:ee:01"⟩
      (by decide) rfl rfl).1⟩⟩

/-! ## Session set-up -/

/-- C7, what the code does: once the dial and the capability handshake have
succeeded, `OpenP4RtC` returns a nil error whatever notifications arrive; in
particular when only backup notifications arrive, the `select` takes the
`ctx2.Done()` case (the timeout) and the function still returns nil. -/
theorem OpenP4RtC_returns_nil_after_handshake :
    (∀ (server : ApiServer) (deviceId high low : Nat) (conn : ClientConn) (version : String)
      (arrived : List Bool),
      (OpenP4RtC server deviceId high low (Except.ok conn) (Except.ok version) arrived).2 =
        none) ∧
    electionSelect [false, false, false] = SelectCase.ctxDone ∧
    (OpenP4RtC NewApiServer 1 0 1 (Except.ok ⟨"localhost:9559"⟩) (Except.ok "1.3.0")
      [false, false, false]).2 = none := by
  refine ⟨?_, by decide, by decide⟩
  intro server deviceId high low conn version arrived
  simp only [OpenP4RtC]
  cases electionSelect arrived <;> rfl

/-! ## Forwarding-pipeline calls -/

/-- C10, what the code does: with no session opened the singleton's client is
nil, and `GetFwdPipe` and `SetFwdPipe` call the client's method on it without
a check.  `GetFwdPipe` then panics for every argument.  `SetFwdPipe` panics
whenever both files can be read and the P4Info text decodes; it returns an
error only when a file cannot be read or the text does not decode, and that
error is the file's or the decoder's, built before the client is touched. -/
theorem FwdPipe_without_session_panics (env : ClientEnv) :
    (∀ responseType : Nat, GetFwdPipe env NewApiServer responseType = none) ∧
    (∀ (binPath p4infoPath : String) (cookie : Nat) (binBytes p4infoBytes : List Nat),
      env.ReadFile binPath = Except.ok binBytes →
      env.ReadFile p4infoPath = Except.ok p4infoBytes →
      env.UnmarshalP4Info p4infoBytes = Except.ok () →
        SetFwdPipe env NewApiServer binPath p4infoPath cookie = none) ∧
    (∀ (binPath p4infoPath : String) (cookie : Nat) (msg : String),
      env.ReadFile binPath = Except.error msg →
        SetFwdPipe env NewApiServer binPath p4infoPath cookie =
          some (none, some (GoError.errorf
            ("error when reading binary device config: " ++ msg)))) ∧
    (∀ (binPath p4infoPath : String) (cookie : Nat) (binBytes : List Nat) (msg : String),
      env.ReadFile binPath = Except.ok binBytes →
      env.ReadFile p4infoPath = Except.error msg →
        SetFwdPipe env NewApiServer binPath p4infoPath cookie =
          some (none, some (GoError.errorf
            ("error when reading P4Info text file: " ++ msg)))) ∧
    (∀ (binPath p4infoPath : String) (cookie : Nat) (binBytes p4infoBytes : List Nat)
      (msg : String),
      env.ReadFile binPath = Except.ok binBytes →
      env.ReadFile p4infoPath = Except.ok p4infoBytes →
      env.UnmarshalP4Info p4infoBytes = Except.error msg →
        SetFwdPipe env NewApiServer binPath p4infoPath cookie =
          some (none, some (GoError.errorf
            ("failed to decode P4Info Protobuf message: " ++ msg)))) := by
  refine ⟨fun _ => rfl, ?_, ?_, ?_, ?_⟩
  · intro binPath p4infoPath cookie binBytes p4infoBytes hbin hinfo hdec
    simp [SetFwdPipe, Client.SetFwdPipe, Client.SetFwdPipeFromBytes, NewApiServer, hbin,
      hinfo, hdec]
  · intro binPath p4infoPath cookie msg hbin
    simp [SetFwdPipe, Client.SetFwdPipe, hbin]
  · intro binPath p4infoPath cookie binBytes msg hbin hinfo
    simp [SetFwdPipe, Client.SetFwdPipe, hbin, hinfo]
  · intro binPath p4infoPath cookie binBytes p4infoBytes msg hbin hinfo hdec
    simp [SetFwdPipe, Client.SetFwdPipe, Client.SetFwdPipeFromBytes, hbin, hinfo, hdec]

theorem FwdPipe_without_session_panics_witness :
    GetFwdPipe loadableEnv NewApiServer 0 = none ∧
    SetFwdPipe loadableEnv NewApiServer "k8s_dp/k8s_dp.pb.bin" "k8s_dp/p4Info.txt" 0 = none :=
  ⟨(FwdPipe_without_session_panics loadableEnv).1 0,
    (FwdPipe_without_session_panics loadableEnv).2.1 "k8s_dp/k8s_dp.pb.bin"
      "k8s_dp/p4Info.txt" 0 [] [] rfl rfl rfl⟩

/-! ## Success flag and error -/

theorem insertRule_flag_iff (c : Collab) (w : World) (mac ip : String) (port : Int)
    (kind : InterfaceType) :
    (insertRule c w mac ip port kind).2.1 = false ↔
      (insertRule c w mac ip port kind).2.2 ≠ none := by
  unfold insertRule
  simp only [GetFromStore, InsertCniRules, WriteToStore]
  cases w.store ip with
  | some stored =>
    by_cases h : stored.PodIpAddress = ip ∧ stored.InterfaceID = uint32 port ∧
        stored.PodMacAddress = mac
    · simp [h]
    · simp [h]
  | none =>
    cases c.InsertCniRules (w.trace ++ [Event.GetFromStore ip]) mac ip port kind with
    | some e => simp
    | none =>
      cases c.WriteToStore
        (w.trace ++ [Event.GetFromStore ip] ++ [Event.InsertCniRules mac ip port kind])
        ⟨ip, uint32 port, mac⟩ <;> simp [*]

/-- C11: the success flag agrees with the error.  For every request and every
behaviour of the store and the dataplane, whenever `CreateNetwork`,
`DeleteNetwork` or `SetupHostInterface` returns a reply and an error, the
reply's `Successful` flag is false exactly when the error is non-nil. -/
theorem success_flag_agrees_with_error (c : Collab) (w : World) :
    (∀ (req : CreateNetworkRequest) (reply : AddReply) (err : Option GoError),
      (CreateNetwork c w req).2 = some (reply, err) →
        (reply.Successful = false ↔ err ≠ none)) ∧
    (∀ (req : DeleteNetworkRequest) (reply : DelReply) (err : Option GoError),
      (DeleteNetwork c w req).2 = some (reply, err) →
        (reply.Successful = false ↔ err ≠ none)) ∧
    (∀ (req : SetupHostInterfaceRequest) (reply : Reply) (err : Option GoError),
      (SetupHostInterface c w req).2 = some (reply, err) →
        (reply.Successful = false ↔ err ≠ none)) := by
  refine ⟨?_, ?_, ?_⟩
  · intro req reply err h
    unfold CreateNetwork at h
    cases hadd : req.AddRequest with
    | none => simp [hadd] at h
    | some add =>
      cases hip : add.ContainerIps[0]? with
      | none => simp [hadd, hip] at h
      | some ip0 =>
        cases hname : (strings_Split req.HostIfName '_')[1]? with
        | none => simp [hadd, hip, strings_Split_zero, hname] at h
        | some portIDStr =>
          cases hparse : (ParseInt portIDStr).2 with
          | some e =>
            simp [hadd, hip, strings_Split_zero, hname, hparse] at h
            obtain ⟨h1, h2⟩ := h
            subst h1 h2
            simp
          | none =>
            simp [hadd, hip, strings_Split_zero, hname, hparse] at h
            obtain ⟨h1, h2⟩ := h
            subst h1 h2
            exact insertRule_flag_iff c w _ _ _ _
  · intro req reply err h
    unfold DeleteNetwork at h
    simp only [strings_Split_zero, GetFromStore, DeleteCniRules, DeleteFromStore] at h
    cases hrec : w.store (beforeFirst '/' req.Ipv4Addr) with
    | none =>
      simp [hrec] at h
      obtain ⟨h1, h2⟩ := h
      subst h1 h2
      simp
    | some stored =>
      cases hdp : c.DeleteCniRules
          (w.trace ++ [Event.GetFromStore (beforeFirst '/' req.Ipv4Addr)])
          req.MacAddr (beforeFirst '/' req.Ipv4Addr) with
      | some e =>
        simp [hrec, hdp] at h
        obtain ⟨h1, h2⟩ := h
        subst h1 h2
        simp
      | none =>
        cases hdel : c.DeleteFromStore
            (w.trace ++ [Event.GetFromStore (beforeFirst '/' req.Ipv4Addr),
              Event.DeleteCniRules req.MacAddr (beforeFirst '/' req.Ipv4Addr)])
            (beforeFirst '/' req.Ipv4Addr) with
        | true =>
          simp [hrec, hdp, hdel] at h
          obtain ⟨h1, h2⟩ := h
          subst h1 h2
          simp
        | false =>
          simp [hrec, hdp, hdel] at h
          obtain ⟨h1, h2⟩ := h
          subst h1 h2
          simp
  · intro req reply err h
    unfold SetupHostInterface at h
    cases hname : (strings_Split req.IfName '_')[1]? with
    | none => simp [strings_Split_zero, hname] at h
    | some portIDStr =>
      cases hparse : (ParseInt portIDStr).2 with
      | some e =>
        simp [strings_Split_zero, hname, hparse] at h
        obtain ⟨h1, h2⟩ := h
        subst h1 h2
        simp
      | none =>
        simp [strings_Split_zero, hname, hparse] at h
        obtain ⟨h1, h2⟩ := h
        subst h1 h2
        exact insertRule_flag_iff c w _ _ _ _

theorem success_flag_agrees_with_error_witness :
    ((CreateNetwork okCollab emptyWorld
        ⟨some ⟨[⟨"10.0.0.5/24"⟩], "eth0"⟩, "aa:bb:cc:dd:ee:01", "veth_2"⟩).2 =
        some (⟨"eth0", true⟩, none) ∧
      ((⟨"eth0", true⟩ : AddReply).Successful = false ↔ (none : Option GoError) ≠ none)) ∧
    ((DeleteNetwork okCollab emptyWorld ⟨"10.0.0.9/24", "aa:bb:cc:dd:ee:01"⟩).2 =
        some (⟨false⟩,
          some (GoError.errorf "Entry for 10.0.0.9 does not exist in the store")) ∧
      ((⟨false⟩ : DelReply).Successful = false ↔
        some (GoError.errorf "Entry for 10.0.0.9 does not exist in the store") ≠ none)) ∧
    ((SetupHostInterface okCollab emptyWorld
        ⟨"192.168.1.10/32", "bb:bb:cc:dd:ee:01", "host_x"⟩).2 =
        some (⟨false⟩, some (GoError.numError "ParseInt" "x" false)) ∧
      ((⟨false⟩ : Reply).Successful = false ↔
        some (GoError.numError "ParseInt" "x" false) ≠ none)) :=
  ⟨⟨by decide, (success_flag_agrees_with_error okCollab emptyWorld).1
      ⟨some ⟨[⟨"10.0.0.5/24"⟩], "eth0"⟩, "aa:bb:cc:dd:ee:01", "veth_2"⟩ ⟨"eth0", true⟩ none
      (by decide)⟩,
    ⟨by decide, (success_flag_agrees_with_error okCollab emptyWorld).2.1
      ⟨"10.0.0.9/24", "aa:bb:cc:dd:ee:01"⟩ ⟨false⟩
      (some (GoError.errorf "Entry for 10.0.0.9 does not exist in the store")) (by decide)⟩,
    ⟨by decide, (success_flag_agrees_with_error okCollab emptyWorld).2.2
      ⟨"192.168.1.10/32", "bb:bb:cc:dd:ee:01", "host_x"⟩ ⟨false⟩
      (some (GoError.numError "ParseInt" "x" false)) (by decide)⟩⟩

/-! ## The two create handlers -/

theorem insertRule_kinds_alike (c : Collab) (w : World) (mac ip : String) (port : Int)
    (hins : c.InsertCniRules (w.trace ++ [Event.GetFromStore ip]) mac ip port
        InterfaceType.HOST =
      c.InsertCniRules (w.trace ++ [Event.GetFromStore ip]) mac ip port
        InterfaceType.ENDPOINT)
    (hwr : c.WriteToStore
        (w.trace ++ [Event.GetFromStore ip,
          Event.InsertCniRules mac ip port InterfaceType.HOST]) ⟨ip, uint32 port, mac⟩ =
      c.WriteToStore
        (w.trace ++ [Event.GetFromStore ip,
          Event.InsertCniRules mac ip port InterfaceType.ENDPOINT]) ⟨ip, uint32 port, mac⟩) :
    (insertRule c w mac ip port InterfaceType.HOST).2 =
      (insertRule c w mac ip port InterfaceType.ENDPOINT).2 ∧
    (insertRule c w mac ip port InterfaceType.HOST).1.store =
      (insertRule c w mac ip port InterfaceType.ENDPOINT).1.store ∧
    (insertRule c w mac ip port InterfaceType.HOST).1.trace.drop w.trace.length =
      ((insertRule c w mac ip port InterfaceType.ENDPOINT).1.trace.drop w.trace.length).map
        (Event.withKind InterfaceType.HOST) ∧
    (insertRule c w mac ip port InterfaceType.ENDPOINT).1.trace.drop w.trace.length =
      ((insertRule c w mac ip port InterfaceType.HOST).1.trace.drop w.trace.length).map
        (Event.withKind InterfaceType.ENDPOINT) ∧
    (∀ e ∈ (insertRule c w mac ip port InterfaceType.HOST).1.trace.drop w.trace.length,
      e.ip = ip) ∧
    (∀ e ∈ (insertRule c w mac ip port InterfaceType.ENDPOINT).1.trace.drop w.trace.length,
      e.ip = ip) := by
  unfold insertRule
  simp only [GetFromStore, InsertCniRules, WriteToStore, List.append_assoc,
    List.singleton_append]
  cases w.store ip with
  | some stored =>
    by_cases h : stored.PodIpAddress = ip ∧ stored.InterfaceID = uint32 port ∧
        stored.PodMacAddress = mac
    · simp [h, Event.withKind, Event.ip]
    · simp [h, Event.withKind, Event.ip]
  | none =>
    rw [hins]
    cases c.InsertCniRules (w.trace ++ [Event.GetFromStore ip]) mac ip port
        InterfaceType.ENDPOINT with
    | some e => simp [Event.withKind, Event.ip]
    | none =>
      rw [hwr]
      cases c.WriteToStore
        (w.trace ++ [Event.GetFromStore ip,
          Event.InsertCniRules mac ip port InterfaceType.ENDPOINT])
        ⟨ip, uint32 port, mac⟩ <;> simp [Event.withKind, Event.ip]

/-- C12, as amended: `SetupHostInterface` is create with kind `HOST`.  Take the request
`SetupHostInterface{ipv4Addr, macAddr, ifName}` and the request
`CreateNetwork{containerIps[0].address = ipv4Addr, macAddr, hostIfName = ifName}`
in the same world, with collaborators that answer the install and the store
write for kind `HOST` as they answer them for kind `ENDPOINT`.  Then the two
handlers return the same success flag and the same error (or both panic),
leave the same store, and make the same collaborator calls except that the
install carries `HOST` instead of `ENDPOINT`; in both, every call is for the
text of `ipv4Addr` before the first `/`. -/
theorem SetupHostInterface_is_create_with_HOST (c : Collab) (w : World)
    (ipv4Addr macAddr ifName desired : String) (more : List IPConfig)
    (hins : ∀ port : Int,
      c.InsertCniRules (w.trace ++ [Event.GetFromStore (beforeFirst '/' ipv4Addr)]) macAddr
          (beforeFirst '/' ipv4Addr) port InterfaceType.HOST =
        c.InsertCniRules (w.trace ++ [Event.GetFromStore (beforeFirst '/' ipv4Addr)]) macAddr
          (beforeFirst '/' ipv4Addr) port InterfaceType.ENDPOINT)
    (hwr : ∀ port : Int,
      c.WriteToStore
          (w.trace ++ [Event.GetFromStore (beforeFirst '/' ipv4Addr),
            Event.InsertCniRules macAddr (beforeFirst '/' ipv4Addr) port InterfaceType.HOST])
          ⟨beforeFirst '/' ipv4Addr, uint32 port, macAddr⟩ =
        c.WriteToStore
          (w.trace ++ [Event.GetFromStore (beforeFirst '/' ipv4Addr),
            Event.InsertCniRules macAddr (beforeFirst '/' ipv4Addr) port
              InterfaceType.ENDPOINT])
          ⟨beforeFirst '/' ipv4Addr, uint32 port, macAddr⟩) :
    flagAndError Reply.Successful (SetupHostInterface c w ⟨ipv4Addr, macAddr, ifName⟩).2 =
      flagAndError AddReply.Successful
        (CreateNetwork c w ⟨some ⟨⟨ipv4Addr⟩ :: more, desired⟩, macAddr, ifName⟩).2 ∧
    (SetupHostInterface c w ⟨ipv4Addr, macAddr, ifName⟩).1.store =
      (CreateNetwork c w ⟨some ⟨⟨ipv4Addr⟩ :: more, desired⟩, macAddr, ifName⟩).1.store ∧
    (SetupHostInterface c w ⟨ipv4Addr, macAddr, ifName⟩).1.trace.drop w.trace.length =
      ((CreateNetwork c w ⟨some ⟨⟨ipv4Addr⟩ :: more, desired⟩, macAddr, ifName⟩).1.trace.drop
        w.trace.length).map (Event.withKind InterfaceType.HOST) ∧
    (CreateNetwork c w ⟨some ⟨⟨ipv4Addr⟩ :: more, desired⟩, macAddr, ifName⟩).1.trace.drop
        w.trace.length =
      ((SetupHostInterface c w ⟨ipv4Addr, macAddr, ifName⟩).1.trace.drop
        w.trace.length).map (Event.withKind InterfaceType.ENDPOINT) ∧
    (∀ e ∈ (SetupHostInterface c w ⟨ipv4Addr, macAddr, ifName⟩).1.trace.drop w.trace.length,
      e.ip = beforeFirst '/' ipv4Addr) ∧
    (∀ e ∈ (CreateNetwork c w ⟨some ⟨⟨ipv4Addr⟩ :: more, desired⟩, macAddr,
        ifName⟩).1.trace.drop w.trace.length,
      e.ip = beforeFirst '/' ipv4Addr) := by
  unfold SetupHostInterface CreateNetwork
  simp only [strings_Split_zero, List.getElem?_cons_zero]
  cases hname : (strings_Split ifName '_')[1]? with
  | none => simp [flagAndError]
  | some portIDStr =>
    cases hparse : (ParseInt portIDStr).2 with
    | some e => simp [flagAndError, hparse]
    | none =>
      obtain ⟨h1, h2, h3, h4, h5, h6⟩ :=
        insertRule_kinds_alike c w macAddr (beforeFirst '/' ipv4Addr) (ParseInt portIDStr).1
          (hins _) (hwr _)
      simp only [hparse]
      refine ⟨?_, h2, h3, h4, h5, h6⟩
      simp [flagAndError, h1]

theorem SetupHostInterface_is_create_with_HOST_witness :
    flagAndError Reply.Successful
      (SetupHostInterface okCollab emptyWorld
        ⟨"192.168.1.10/32", "bb:bb:cc:dd:ee:01", "host_0"⟩).2 =
      flagAndError AddReply.Successful
        (CreateNetwork okCollab emptyWorld
          ⟨some ⟨⟨"192.168.1.10/32"⟩ :: [], "eth0"⟩, "bb:bb:cc:dd:ee:01", "host_0"⟩).2 ∧
    (SetupHostInterface okCollab emptyWorld
        ⟨"192.168.1.10/32", "bb:bb:cc:dd:ee:01", "host_0"⟩).1.trace.drop
        emptyWorld.trace.length =
      ((CreateNetwork okCollab emptyWorld
        ⟨some ⟨⟨"192.168.1.10/32"⟩ :: [], "eth0"⟩, "bb:bb:cc:dd:ee:01",
          "host_0"⟩).1.trace.drop emptyWorld.trace.length).map
        (Event.withKind InterfaceType.HOST) ∧
    (SetupHostInterface okCollab emptyWorld
        ⟨"192.168.1.10/32", "bb:bb:cc:dd:ee:01", "host_0"⟩).1.trace =
      [Event.GetFromStore "192.168.1.10",
        Event.InsertCniRules "bb:bb:cc:dd:ee:01" "192.168.1.10" 0 InterfaceType.HOST,
        Event.WriteToStore ⟨"192.168.1.10", 0, "bb:bb:cc:dd:ee:01"⟩] :=
  ⟨(SetupHostInterface_is_create_with_HOST okCollab emptyWorld "192.168.1.10/32"
      "bb:bb:cc:dd:ee:01" "host_0" "eth0" [] (fun _ => rfl) (fun _ => rfl)).1,
    (SetupHostInterface_is_create_with_HOST okCollab emptyWorld "192.168.1.10/32"
      "bb:bb:cc:dd:ee:01" "host_0" "eth0" [] (fun _ => rfl) (fun _ => rfl)).2.2.1,
    by decide⟩

/-- C12 as stated fails: with a dataplane that refuses installs of kind `HOST`
only, `SetupHostInterface` for `192.168.1.10/32`, `host_0` replies
`Successful = false` with the dataplane's error and writes nothing to the
store, while `CreateNetwork` for the same address, MAC and interface name
replies `Successful = true` with a nil error and writes the record. -/
theorem SetupHostInterface_is_create_with_HOST_counterexample :
    (SetupHostInterface hostRefusingCollab emptyWorld
      ⟨"192.168.1.10/32", "bb:bb:cc:dd:ee:01", "host_0"⟩).2 =
      some (⟨false⟩, some (GoError.collab "host rules not available")) ∧
    (CreateNetwork hostRefusingCollab emptyWorld
      ⟨some ⟨[⟨"192.168.1.10/32"⟩], "eth0"⟩, "bb:bb:cc:dd:ee:01", "host_0"⟩).2 =
      some (⟨"eth0", true⟩, none) ∧
    (SetupHostInterface hostRefusingCollab emptyWorld
      ⟨"192.168.1.10/32", "bb:bb:cc:dd:ee:01", "host_0"⟩).1.trace =
      [Event.GetFromStore "192.168.1.10",
        Event.InsertCniRules "bb:bb:cc:dd:ee:01" "192.168.1.10" 0 InterfaceType.HOST] ∧
    (CreateNetwork hostRefusingCollab emptyWorld
      ⟨some ⟨[⟨"192.168.1.10/32"⟩], "eth0"⟩, "bb:bb:cc:dd:ee:01", "host_0"⟩).1.trace =
      [Event.GetFromStore "192.168.1.10",
        Event.InsertCniRules "bb:bb:cc:dd:ee:01" "192.168.1.10" 0 InterfaceType.ENDPOINT,
        Event.WriteToStore ⟨"192.168.1.10", 0, "bb:bb:cc:dd:ee:01"⟩] := by
  refine ⟨by decide, by decide, by decide, by decide⟩

/-! ## Health check -/

/-- C13: the health check reflects the serving flag.  For every value of the
flag, `Check` returns `SERVING` with a nil error when the flag equals
`ServerStatusOK`, and `NOT_SERVING` with a non-nil error otherwise; `Start`
sets the flag to `ServerStatusOK` and `Stop` sets it to `ServerStatusStopped`;
so `Check` after `Start` returns `SERVING` with a nil error, and, the two
constants being different, `Check` after `Stop` returns `NOT_SERVING` with a
non-nil error. -/
theorem Check_reflects_flag (n : StatusNames) :
    (∀ s : Service, s.InfraManagerServerStatus = n.ServerStatusOK →
      Check n s = ({ Status := ServingStatus.SERVING }, none)) ∧
    (∀ s : Service, s.InfraManagerServerStatus ≠ n.ServerStatusOK →
      Check n s = ({ Status := ServingStatus.NOT_SERVING },
        some (GoError.errorf "InfraManager server is not serving"))) ∧
    (∀ s : Service, (Start n s).InfraManagerServerStatus = n.ServerStatusOK) ∧
    (∀ s : Service, (Stop n s).InfraManagerServerStatus = n.ServerStatusStopped) ∧
    (∀ s : Service, Check n (Start n s) = ({ Status := ServingStatus.SERVING }, none)) ∧
    (n.ServerStatusStopped ≠ n.ServerStatusOK →
      ∀ s : Service, Check n (Stop n s) = ({ Status := ServingStatus.NOT_SERVING },
        some (GoError.errorf "InfraManager server is not serving"))) := by
  refine ⟨?_, ?_, ?_, ?_, ?_, ?_⟩
  · intro s h
    simp [Check, h]
  · intro s h
    simp [Check, h]
  · intro s
    rfl
  · intro s
    rfl
  · intro s
    simp [Check, Start]
  · intro hne s
    simp [Check, Stop, hne]

theorem Check_reflects_flag_witness :
    specStatusNames.ServerStatusStopped ≠ specStatusNames.ServerStatusOK ∧
    Check specStatusNames ⟨"serving", false, false⟩ =
      ({ Status := ServingStatus.SERVING }, none) ∧
    Check specStatusNames ⟨"starting", false, false⟩ =
      ({ Status := ServingStatus.NOT_SERVING },
        some (GoError.errorf "InfraManager server is not serving")) ∧
    Check specStatusNames (Stop specStatusNames (Start specStatusNames ⟨"", false, false⟩)) =
      ({ Status := ServingStatus.NOT_SERVING },
        some (GoError.errorf "InfraManager server is not serving")) :=
  ⟨by decide,
    (Check_reflects_flag specStatusNames).1 ⟨"serving", false, false⟩ rfl,
    (Check_reflects_flag specStatusNames).2.1 ⟨"starting", false, false⟩ (by decide),
    (Check_reflects_flag specStatusNames).2.2.2.2.2 (by decide)
      (Start specStatusNames ⟨"", false, false⟩)⟩

end ApiHandler
